import Mathlib

/-!
Shallow embedding of the order service of the DeliveryPizza repository
(directory `backend/services/order/app` together with `backend/shared`),
and theorems checking the specification claims about order creation
pricing, the status-transition state machine, the repository effects,
and the statistics aggregation.

Monetary values (Python `Decimal`) are embedded as rationals, which makes
all of the arithmetic in the embedded code exact, as in the source.
Timestamps are embedded as integers. Randomness (the generated order
number) is embedded as a stream of candidate numbers consumed by the
code that calls the generator.
-/

namespace DeliveryPizza

/-- Embeds `shared.schemas.OrderStatus`. -/
inductive OrderStatus
  | pending
  | confirmed
  | preparing
  | ready
  | delivering
  | delivered
  | cancelled
deriving DecidableEq, Repr, Inhabited

/-- Embeds the `.value` of the status enum (its string payload). -/
def OrderStatus.value : OrderStatus → String
  | .pending => "pending"
  | .confirmed => "confirmed"
  | .preparing => "preparing"
  | .ready => "ready"
  | .delivering => "delivering"
  | .delivered => "delivered"
  | .cancelled => "cancelled"

/-- Embeds `order.app.models.DeliveryType`. -/
inductive DeliveryType
  | delivery
  | pickup
deriving DecidableEq, Repr, Inhabited

/-- Embeds `order.app.models.PaymentMethod`. -/
inductive PaymentMethod
  | cash
  | card
  | online
deriving DecidableEq, Repr, Inhabited

/-- Embeds the exception classes of `shared.exceptions` that the order
service raises, each carrying its detail message. `integrityError` stands
for the database uniqueness-constraint violation, which no code of the
order service catches or translates. -/
inductive Err
  | validationError (detail : String)
  | notFound (resource : String)
  | permissionDenied (detail : String)
  | integrityError (detail : String)
deriving DecidableEq, Repr

/-- Embeds `order.app.schemas.OrderItemModifier`: the client-supplied
modifier lines, each with a client-supplied price and quantity. -/
structure OrderItemModifier where
  modifier_id : Int
  name : String
  price : ℚ
  quantity : Int
deriving DecidableEq, Repr, Inhabited

/-- Embeds `order.app.schemas.OrderItemCreate`. The schema constrains
`quantity` with `ge=1`, so parsed requests carry a positive quantity;
the embedding uses `Nat` and states positivity where a claim needs it. -/
structure OrderItemCreate where
  product_id : Int
  quantity : Nat
  modifiers : List OrderItemModifier
  note : Option String
deriving DecidableEq, Repr, Inhabited

/-- Embeds `order.app.schemas.OrderCreate` (the fields the embedded
operations read or persist). -/
structure OrderCreate where
  items : List OrderItemCreate
  delivery_type : DeliveryType
  delivery_address : Option String
  contact_name : String
  contact_phone : String
  payment_method : PaymentMethod
  customer_note : Option String
deriving DecidableEq, Repr, Inhabited

/-- Embeds `order.app.schemas.OrderStatusUpdate`. -/
structure OrderStatusUpdate where
  status : OrderStatus
  note : Option String
deriving DecidableEq, Repr, Inhabited

/-- A product as returned by the Catalog Provider envelope:
`{id, name, price, status}`. -/
structure Product where
  id : Int
  name : String
  price : ℚ
  status : String
deriving DecidableEq, Repr, Inhabited

/-- Embeds a row of the `order_items` table
(`order.app.models.OrderItem`, minus the surrogate keys). The source
stores the modifier snapshot serialized as a JSON string in
`modifiers_json`; the embedding keeps the snapshot unserialized
(`none` exactly when the source stores `NULL`). -/
structure OrderItemRow where
  product_id : Int
  product_name : String
  product_price : ℚ
  quantity : Nat
  modifiers_snapshot : Option (List OrderItemModifier)
  modifiers_total : ℚ
  subtotal : ℚ
  note : Option String
deriving DecidableEq, Repr, Inhabited

/-- Embeds a row of the `order_status_history` table
(`order.app.models.OrderStatusHistory`). -/
structure StatusHistoryRow where
  status : OrderStatus
  note : Option String
  changed_by : Option Int
  created_at : Int
deriving DecidableEq, Repr, Inhabited

/-- Embeds a row of the `orders` table (`order.app.models.Order`) with
its owned item and history rows attached, as the repository loads it. -/
structure OrderRow where
  id : Int
  order_number : String
  user_id : Int
  status : OrderStatus
  delivery_type : DeliveryType
  delivery_address : Option String
  contact_name : String
  contact_phone : String
  subtotal : ℚ
  delivery_fee : ℚ
  discount : ℚ
  total : ℚ
  payment_method : PaymentMethod
  customer_note : Option String
  created_at : Int
  delivered_at : Option Int
  items : List OrderItemRow
  status_history : List StatusHistoryRow
deriving DecidableEq, Repr, Inhabited

/-- The durable store: the rows of the `orders` table (each carrying its
owned items and history). -/
abbrev Store := List OrderRow

/-- Embeds `OrderRepository.get_by_id`: the `SELECT ... WHERE Order.id ==
order_id` returning at most one row. -/
def get_by_id (store : Store) (order_id : Int) : Option OrderRow :=
  store.find? (fun o => o.id == order_id)

/-- Embeds an `UPDATE orders ... WHERE Order.id == order_id`: every row
whose id matches is rewritten by `f`. -/
def store_update_order (store : Store) (order_id : Int) (f : OrderRow → OrderRow) : Store :=
  store.map (fun o => if o.id == order_id then f o else o)

/-- The row-level effect of `OrderRepository.update_status` on the
matched order row: the status column is set, `delivered_at` is stamped
with the current time exactly when the new status is `delivered`, and
one history row recording status, actor and note is appended. -/
def OrderRow.apply_status_update (o : OrderRow) (status : OrderStatus)
    (changed_by : Option Int) (note : Option String) (now : Int) : OrderRow :=
  { o with
    status := status
    delivered_at := if status = .delivered then some now else o.delivered_at
    status_history := o.status_history ++ [⟨status, note, changed_by, now⟩] }

/-- Embeds `OrderRepository.update_status` (repository.py:178): the status
update and the history insert flush in the same session transaction, so
they are one store-to-store step. -/
def OrderRepository.update_status (store : Store) (order_id : Int) (status : OrderStatus)
    (changed_by : Option Int) (note : Option String) (now : Int) : Store :=
  store_update_order store order_id
    (fun o => o.apply_status_update status changed_by note now)

/-- Embeds `OrderService.STATUS_TRANSITIONS` (service.py:24). -/
def STATUS_TRANSITIONS : OrderStatus → List OrderStatus
  | .pending => [.confirmed, .cancelled]
  | .confirmed => [.preparing, .cancelled]
  | .preparing => [.ready, .cancelled]
  | .ready => [.delivering, .cancelled]
  | .delivering => [.delivered, .cancelled]
  | .delivered => []
  | .cancelled => []

/-- The detail message of the `ValidationException` raised for a
transition outside the table (service.py:267). -/
def invalidTransitionDetail (cur tgt : OrderStatus) : String :=
  "Cannot transition from " ++ cur.value ++ " to " ++ tgt.value

/-- Embeds `OrderService.update_order_status` (service.py:241). A raised
exception is an `Except.error`; the session then rolls back, so no store
is produced on the error paths. -/
def OrderService.update_order_status (store : Store) (order_id : Int)
    (data : OrderStatusUpdate) (changed_by : Int) (is_admin : Bool) (now : Int) :
    Except Err Store :=
  match get_by_id store order_id with
  | none => .error (.notFound "Order")
  | some order =>
    if !is_admin && order.user_id != changed_by then
      .error (.permissionDenied "You do not have access to this order")
    else if !is_admin && decide (data.status ≠ .cancelled) then
      .error (.permissionDenied "Customers can only cancel orders")
    else if !is_admin && decide (order.status ≠ .pending) then
      .error (.validationError "Can only cancel pending orders")
    else if data.status ∈ STATUS_TRANSITIONS order.status then
      .ok (OrderRepository.update_status store order_id data.status (some changed_by) data.note now)
    else
      .error (.validationError (invalidTransitionDetail order.status data.status))

/-- The store as the caller observes it after the request: on an
exception the transaction rolls back and the store is unchanged. -/
def runStatusUpdate (store : Store) (order_id : Int) (data : OrderStatusUpdate)
    (changed_by : Int) (is_admin : Bool) (now : Int) : Store :=
  match OrderService.update_order_status store order_id data changed_by is_admin now with
  | .ok s => s
  | .error _ => store

/-- Decidable equality of embedded operation results. -/
instance {ε α : Type} [DecidableEq ε] [DecidableEq α] : DecidableEq (Except ε α) := fun a b =>
  match a, b with
  | .ok x, .ok y =>
    if h : x = y then .isTrue (by rw [h]) else .isFalse (fun hc => h (Except.ok.inj hc))
  | .error x, .error y =>
    if h : x = y then .isTrue (by rw [h]) else .isFalse (fun hc => h (Except.error.inj hc))
  | .ok _, .error _ => .isFalse (fun hc => Except.noConfusion hc)
  | .error _, .ok _ => .isFalse (fun hc => Except.noConfusion hc)

/-- Embeds the Python truthiness test `not data.delivery_address`: true
for a missing or empty address string. -/
def addressBlank : Option String → Bool
  | none => true
  | some s => s == ""

/-- Embeds the product lookup dict `{p [ "id" ] : p for p in products}`
built in `create_order`: for a duplicated id the later element wins. -/
def productMap (products : List Product) (pid : Int) : Option Product :=
  products.reverse.find? (fun p => p.id == pid)

/-- Embeds the product-validation loop of `create_order`
(service.py:71): the first missing product raises the not-found error,
the first non-available product raises the validation error. -/
def validateItems (pm : Int → Option Product) : List OrderItemCreate → Option Err
  | [] => none
  | item :: rest =>
    match pm item.product_id with
    | none => some (.notFound ("Product " ++ toString item.product_id))
    | some p =>
      if p.status != "available" then
        some (.validationError ("Product " ++ p.name ++ " is not available"))
      else validateItems pm rest

/-- Embeds the accumulation `modifiers_total += mod.price * mod.quantity`
over a line of the request (service.py:92). -/
def modifiersTotal (mods : List OrderItemModifier) : ℚ :=
  (mods.map (fun m => m.price * (m.quantity : ℚ))).sum

/-- Embeds `modifiers_json`: `None` when the request line has no
modifiers, otherwise the snapshot of the client-supplied modifier list
(serialized in the source). -/
def modifiersSnapshot (mods : List OrderItemModifier) : Option (List OrderItemModifier) :=
  match mods with
  | [] => none
  | _ => some mods

/-- The unit price taken from the resolved product
(`Decimal(str(product [ "price" ] ))`). The `none` branch is unreachable
after `validateItems` succeeds. -/
def resolvedPrice (pm : Int → Option Product) (pid : Int) : ℚ :=
  match pm pid with
  | some p => p.price
  | none => 0

/-- The product name taken from the resolved product. The `none` branch
is unreachable after `validateItems` succeeds. -/
def resolvedName (pm : Int → Option Product) (pid : Int) : String :=
  match pm pid with
  | some p => p.name
  | none => ""

/-- Embeds `item_subtotal = (product_price + modifiers_total) * item.quantity`
(service.py:103). -/
def lineSubtotal (pm : Int → Option Product) (item : OrderItemCreate) : ℚ :=
  (resolvedPrice pm item.product_id + modifiersTotal item.modifiers) * (item.quantity : ℚ)

/-- Embeds one entry of `items_data` (service.py:106). -/
def buildItemRow (pm : Int → Option Product) (item : OrderItemCreate) : OrderItemRow :=
  { product_id := item.product_id
    product_name := resolvedName pm item.product_id
    product_price := resolvedPrice pm item.product_id
    quantity := item.quantity
    modifiers_snapshot := modifiersSnapshot item.modifiers
    modifiers_total := modifiersTotal item.modifiers
    subtotal := lineSubtotal pm item
    note := item.note }

/-- Embeds the running `subtotal` accumulated over the request lines
(service.py:104). -/
def orderSubtotal (pm : Int → Option Product) (items : List OrderItemCreate) : ℚ :=
  (items.map (lineSubtotal pm)).sum

/-- The pricing-policy constructor arguments of `OrderService`
(service.py:34), held as exact decimals. -/
structure ServiceConfig where
  min_order_amount : ℚ
  delivery_fee : ℚ
  free_delivery_threshold : ℚ
deriving DecidableEq, Repr

/-- The next autoincrement primary key of the `orders` table. -/
def nextId (store : Store) : Int :=
  (store.map (fun o => o.id)).foldl max 0 + 1

/-- Embeds `OrderRepository.create` (repository.py:35). The generated
order number is the head of the candidate stream `numbers` — the source
calls `generate_order_number` exactly once and consumes one random
value. The database uniqueness constraint on `order_number` rejects the
insert when the number is already present; no code of the repository
catches, translates or retries that violation, so it surfaces as the
raw integrity error. -/
def OrderRepository.create (store : Store) (numbers : List String) (user_id : Int)
    (items_data : List OrderItemRow) (data : OrderCreate)
    (subtotal delivery_fee discount total : ℚ) (now : Int) :
    Except Err (Store × OrderRow) :=
  let order_number := numbers.headD ""
  if store.any (fun o => o.order_number == order_number) then
    .error (.integrityError "UNIQUE constraint failed: orders.order_number")
  else
    let order : OrderRow :=
      { id := nextId store
        order_number := order_number
        user_id := user_id
        status := .pending
        delivery_type := data.delivery_type
        delivery_address := data.delivery_address
        contact_name := data.contact_name
        contact_phone := data.contact_phone
        subtotal := subtotal
        delivery_fee := delivery_fee
        discount := discount
        total := total
        payment_method := data.payment_method
        customer_note := data.customer_note
        created_at := now
        delivered_at := none
        items := items_data
        status_history := [⟨.pending, none, some user_id, now⟩] }
    .ok (store ++ [order], order)

/-- Embeds `OrderService.create_order` (service.py:50). The argument
`catalog` is the awaited result of
`CatalogClient.get_products_by_ids` (clients.py:17): `none` when the
remote call raised a transport error or timed out, returned a non-200
status, or returned an envelope without `success`; the `if not products`
check also treats an empty product list as a failure. -/
def OrderService.create_order (cfg : ServiceConfig) (store : Store)
    (catalog : Option (List Product)) (numbers : List String)
    (user_id : Int) (data : OrderCreate) (now : Int) :
    Except Err (Store × OrderRow) :=
  if data.delivery_type == .delivery && addressBlank data.delivery_address then
    .error (.validationError "Delivery address is required for delivery orders")
  else
    match catalog with
    | none => .error (.validationError "Could not fetch product information")
    | some products =>
      if products.isEmpty then
        .error (.validationError "Could not fetch product information")
      else
        let pm := productMap products
        match validateItems pm data.items with
        | some e => .error e
        | none =>
          let items_data := data.items.map (buildItemRow pm)
          let subtotal := orderSubtotal pm data.items
          if subtotal < cfg.min_order_amount then
            .error (.validationError ("Minimum order amount is " ++ toString cfg.min_order_amount))
          else
            let delivery_fee : ℚ :=
              if data.delivery_type == .delivery then
                if subtotal < cfg.free_delivery_threshold then cfg.delivery_fee else 0
              else 0
            let discount : ℚ := 0
            let total := subtotal + delivery_fee - discount
            OrderRepository.create store numbers user_id items_data data
              subtotal delivery_fee discount total now

/-- The store as the caller observes it after a creation request: on an
exception the transaction rolls back and the store is unchanged. -/
def runCreateOrder (cfg : ServiceConfig) (store : Store) (catalog : Option (List Product))
    (numbers : List String) (user_id : Int) (data : OrderCreate) (now : Int) : Store :=
  match OrderService.create_order cfg store catalog numbers user_id data now with
  | .ok (s, _) => s
  | .error _ => store

/-- Embeds `order.app.schemas.OrderStatistics`. -/
structure OrderStatistics where
  total_orders : Nat
  pending_orders : Nat
  completed_orders : Nat
  cancelled_orders : Nat
  total_revenue : ℚ
  average_order_value : ℚ
deriving DecidableEq, Repr

/-- Embeds the filter conditions of the statistics base query
(repository.py:230): optional user, creation-date lower and upper
bounds. -/
def statFilter (user_id date_from date_to : Option Int) (o : OrderRow) : Bool :=
  (match user_id with
    | none => true
    | some u => o.user_id == u) &&
  (match date_from with
    | none => true
    | some d => decide (d ≤ o.created_at)) &&
  (match date_to with
    | none => true
    | some d => decide (o.created_at ≤ d))

/-- Embeds `OrderRepository.get_statistics` (repository.py:223): counts
over the filtered set, revenue summed over its delivered orders, and the
guarded average. -/
def OrderRepository.get_statistics (store : Store)
    (user_id date_from date_to : Option Int) : OrderStatistics :=
  let base := store.filter (statFilter user_id date_from date_to)
  let total_orders := base.length
  let pending_orders := (base.filter (fun o => o.status == .pending)).length
  let completed_orders := (base.filter (fun o => o.status == .delivered)).length
  let cancelled_orders := (base.filter (fun o => o.status == .cancelled)).length
  let total_revenue := ((base.filter (fun o => o.status == .delivered)).map (fun o => o.total)).sum
  let avg := if completed_orders > 0 then total_revenue / (completed_orders : ℚ) else 0
  { total_orders := total_orders
    pending_orders := pending_orders
    completed_orders := completed_orders
    cancelled_orders := cancelled_orders
    total_revenue := total_revenue
    average_order_value := avg }

/-- A demonstration order row sitting in status `ready`. -/
def demoOrder : OrderRow :=
  { id := 1, order_number := "ORD-20260101000000-AAAA", user_id := 7, status := .ready,
    delivery_type := .delivery, delivery_address := some "1 Main St", contact_name := "A B",
    contact_phone := "123", subtotal := 20, delivery_fee := 5, discount := 0, total := 25,
    payment_method := .cash, customer_note := none, created_at := 0, delivered_at := none,
    items := [], status_history := [⟨.pending, none, some 7, 0⟩] }

/-- A demonstration store holding `demoOrder`. -/
def demoStore : Store := [demoOrder]

/-- The store after the accepted demonstration transition `ready` to
`delivering`. -/
def demoStore2 : Store := OrderRepository.update_status demoStore 1 .delivering (some 9) none 5

/-- The pricing policy used by the demonstration scenarios: minimum 10,
flat delivery fee 5, free-delivery threshold 50 — the constructor
defaults of `OrderService`. -/
def demoCfg : ServiceConfig := ⟨10, 5, 50⟩

/-- One available catalog product, id 42, price 10. -/
def demoProducts : List Product := [⟨42, "Margherita", 10, "available"⟩]

/-- Scenario A of the specification: two units of product 42 for
delivery. -/
def demoData : OrderCreate :=
  { items := [⟨42, 2, [], none⟩], delivery_type := .delivery,
    delivery_address := some "1 Main St", contact_name := "A B", contact_phone := "123",
    payment_method := .cash, customer_note := none }

/-- The item row scenario A persists: unit price 10, quantity 2. -/
def demoCreatedItem : OrderItemRow :=
  { product_id := 42, product_name := "Margherita", product_price := 10,
    quantity := 2, modifiers_snapshot := none, modifiers_total := 0, subtotal := 20,
    note := none }

/-- The order row scenario A persists: subtotal 20, delivery fee 5,
total 25. -/
def demoCreatedOrder : OrderRow :=
  { id := 1, order_number := "ORD-A", user_id := 7, status := .pending,
    delivery_type := .delivery, delivery_address := some "1 Main St",
    contact_name := "A B", contact_phone := "123", subtotal := 20, delivery_fee := 5,
    discount := 0, total := 25, payment_method := .cash, customer_note := none,
    created_at := 0, delivered_at := none,
    items := [demoCreatedItem],
    status_history := [⟨.pending, none, some 7, 0⟩] }

/-- The store scenario A leaves behind. -/
def demoCreatedStore : Store := [demoCreatedOrder]

/-- Scenario B of the specification: six units of product 42 for
delivery, crossing the free-delivery threshold. -/
def demoDataB : OrderCreate :=
  { items := [⟨42, 6, [], none⟩], delivery_type := .delivery,
    delivery_address := some "1 Main St", contact_name := "A B", contact_phone := "123",
    payment_method := .cash, customer_note := none }

/-- The item row scenario B persists: unit price 10, quantity 6. -/
def demoCreatedItemB : OrderItemRow :=
  { product_id := 42, product_name := "Margherita", product_price := 10,
    quantity := 6, modifiers_snapshot := none, modifiers_total := 0, subtotal := 60,
    note := none }

/-- The order row scenario B persists: subtotal 60, delivery fee 0,
total 60. -/
def demoCreatedOrderB : OrderRow :=
  { id := 1, order_number := "ORD-B", user_id := 7, status := .pending,
    delivery_type := .delivery, delivery_address := some "1 Main St",
    contact_name := "A B", contact_phone := "123", subtotal := 60, delivery_fee := 0,
    discount := 0, total := 60, payment_method := .cash, customer_note := none,
    created_at := 0, delivered_at := none,
    items := [demoCreatedItemB],
    status_history := [⟨.pending, none, some 7, 0⟩] }

/-- The store scenario B leaves behind. -/
def demoCreatedStoreB : Store := [demoCreatedOrderB]

/-- One available catalog product, id 43, price 5, for the
minimum-order boundary scenario. -/
def demoProductsMin : List Product := [⟨43, "Focaccia", 5, "available"⟩]

/-- A pickup request for two units of product 43: subtotal exactly the
configured minimum of 10. -/
def demoDataMin : OrderCreate :=
  { items := [⟨43, 2, [], none⟩], delivery_type := .pickup, delivery_address := none,
    contact_name := "A B", contact_phone := "123", payment_method := .cash,
    customer_note := none }

/-- A pickup request for one unit of product 42 carrying one
client-priced modifier line: the modifier price is whatever the client
sent. -/
def demoModData (p : ℚ) : OrderCreate :=
  { items := [⟨42, 1, [⟨5, "extra", p, 1⟩], none⟩], delivery_type := .pickup,
    delivery_address := none, contact_name := "A B", contact_phone := "123",
    payment_method := .cash, customer_note := none }

/-- The total of the order persisted for request `d` under a minimum of
5 against the demonstration catalog, when creation succeeds. -/
def demoTotal (d : OrderCreate) : Option ℚ :=
  match OrderService.create_order ⟨5, 5, 50⟩ [] (some demoProducts) ["ORD-M"] 7 d 0 with
  | .ok (_, o) => some o.total
  | .error _ => none

/-- A store already holding an order numbered `ORD-DUP`: the next
creation attempt whose generated candidate is `ORD-DUP` collides. -/
def dupStore : Store := [{ demoOrder with order_number := "ORD-DUP" }]

/-- Whether a repository result is a successful insert. -/
def createSucceeded (r : Except Err (Store × OrderRow)) : Bool :=
  match r with
  | .ok _ => true
  | .error _ => false

/-- A row update that preserves the primary key commutes with looking the
row up by that key. -/
theorem get_by_id_store_update_same (store : Store) (order_id : Int) (f : OrderRow → OrderRow)
    (hid : ∀ o, (f o).id = o.id) :
    get_by_id (store_update_order store order_id f) order_id =
      (get_by_id store order_id).map f := by
  induction store with
  | nil => rfl
  | cons a l ih =>
    simp only [get_by_id, store_update_order, List.map_cons] at *
    by_cases h : (a.id == order_id) = true
    · have hf : ((f a).id == order_id) = true := by rw [hid a]; exact h
      rw [if_pos h]
      simp only [List.find?, hf, h]
      rfl
    · have hb : (a.id == order_id) = false := by simpa using h
      rw [if_neg h]
      simp only [List.find?, hb]
      exact ih

/-- Success shape of `create_order`: whenever creation returns an order,
the persisted order carries exactly the computed item rows and pricing
fields of the service. -/
theorem create_order_ok_fields (cfg : ServiceConfig) (store : Store)
    (catalog : Option (List Product)) (numbers : List String) (user_id : Int)
    (data : OrderCreate) (now : Int) (s : Store) (o : OrderRow)
    (hok : OrderService.create_order cfg store catalog numbers user_id data now = .ok (s, o)) :
    ∃ products, catalog = some products ∧
      o.items = data.items.map (buildItemRow (productMap products)) ∧
      o.subtotal = orderSubtotal (productMap products) data.items ∧
      o.discount = 0 ∧
      o.delivery_fee = (if data.delivery_type == DeliveryType.delivery then
          (if orderSubtotal (productMap products) data.items < cfg.free_delivery_threshold
            then cfg.delivery_fee else 0)
          else 0) ∧
      o.total = o.subtotal + o.delivery_fee - o.discount := by
  cases catalog with
  | none =>
    simp only [OrderService.create_order] at hok
    by_cases ha :
        (data.delivery_type == DeliveryType.delivery && addressBlank data.delivery_address) = true
    · rw [if_pos ha] at hok
      exact absurd hok (by simp)
    · rw [if_neg ha] at hok
      exact absurd hok (by simp)
  | some products =>
    refine ⟨products, rfl, ?_⟩
    simp only [OrderService.create_order] at hok
    by_cases ha :
        (data.delivery_type == DeliveryType.delivery && addressBlank data.delivery_address) = true
    · rw [if_pos ha] at hok
      exact absurd hok (by simp)
    · rw [if_neg ha] at hok
      by_cases he : products.isEmpty = true
      · rw [if_pos he] at hok
        exact absurd hok (by simp)
      · rw [if_neg he] at hok
        cases hv : validateItems (productMap products) data.items with
        | some e =>
          rw [hv] at hok
          exact absurd hok (by simp)
        | none =>
          rw [hv] at hok
          by_cases hmin : orderSubtotal (productMap products) data.items < cfg.min_order_amount
          · rw [if_pos hmin] at hok
            exact absurd hok (by simp)
          · rw [if_neg hmin] at hok
            simp only [OrderRepository.create] at hok
            by_cases hdup :
                (store.any (fun r => r.order_number == numbers.headD "")) = true
            · rw [if_pos hdup] at hok
              exact absurd hok (by simp)
            · rw [if_neg hdup] at hok
              have ho : o = _ := (congrArg Prod.snd (Except.ok.inj hok)).symm
              subst ho
              exact ⟨rfl, rfl, rfl, rfl, rfl⟩

/-- C7: the statistics operation returns the size of the filtered set,
the pending, delivered and cancelled counts over it, the revenue summed
only over its delivered orders, and an average order value equal to the
revenue divided by the delivered count — equal to zero when there are no
delivered orders, so the guarded division branch is never reached with a
zero divisor. -/
theorem get_statistics_spec (store : Store) (u f t : Option Int) :
    (OrderRepository.get_statistics store u f t).total_orders =
        (store.filter (statFilter u f t)).length ∧
      (OrderRepository.get_statistics store u f t).pending_orders =
        (store.filter (statFilter u f t)).countP (fun o => o.status == .pending) ∧
      (OrderRepository.get_statistics store u f t).completed_orders =
        (store.filter (statFilter u f t)).countP (fun o => o.status == .delivered) ∧
      (OrderRepository.get_statistics store u f t).cancelled_orders =
        (store.filter (statFilter u f t)).countP (fun o => o.status == .cancelled) ∧
      (OrderRepository.get_statistics store u f t).total_revenue =
        ((store.filter (fun o => (o.status == .delivered) && statFilter u f t o)).map
          (fun o => o.total)).sum ∧
      (OrderRepository.get_statistics store u f t).average_order_value =
        (OrderRepository.get_statistics store u f t).total_revenue /
          ((OrderRepository.get_statistics store u f t).completed_orders : ℚ) ∧
      ((OrderRepository.get_statistics store u f t).completed_orders = 0 →
        (OrderRepository.get_statistics store u f t).average_order_value = 0) := by
  simp only [OrderRepository.get_statistics]
  refine ⟨by trivial, (List.countP_eq_length_filter _ _).symm,
    (List.countP_eq_length_filter _ _).symm,
    (List.countP_eq_length_filter _ _).symm, ?_, ?_, ?_⟩
  · rw [List.filter_filter]
  · by_cases hz :
        ((store.filter (statFilter u f t)).filter (fun o => o.status == .delivered)).length = 0
    · rw [if_neg (by omega), List.length_eq_zero.mp hz]
      simp
    · rw [if_pos (by omega)]
  · intro hz
    rw [if_neg (by omega)]

/-- C2: for an existing order and a privileged actor, a requested status
transition is accepted exactly when the pair of current and requested
status is in the transition table; a request outside the table fails with
the invalid-transition validation error naming the current and requested
statuses; and `delivered` and `cancelled` admit no outgoing transitions. -/
theorem privileged_transition_iff_in_table (store : Store) (order_id : Int)
    (data : OrderStatusUpdate) (changed_by : Int) (now : Int) (o : OrderRow)
    (hfind : get_by_id store order_id = some o) :
    ((OrderService.update_order_status store order_id data changed_by true now).isOk = true
        ↔ data.status ∈ STATUS_TRANSITIONS o.status) ∧
      (data.status ∉ STATUS_TRANSITIONS o.status →
        OrderService.update_order_status store order_id data changed_by true now =
          .error (.validationError (invalidTransitionDetail o.status data.status))) ∧
      STATUS_TRANSITIONS .delivered = [] ∧ STATUS_TRANSITIONS .cancelled = [] := by
  unfold OrderService.update_order_status
  rw [hfind]
  by_cases hm : data.status ∈ STATUS_TRANSITIONS o.status <;>
    simp [hm, Except.isOk, Except.toBool] <;> decide

/-- Witness for C2: an order in `ready`, privileged request for
`confirmed`, which the table does not allow. -/
theorem privileged_transition_iff_in_table_witness :
    get_by_id demoStore 1 = some demoOrder ∧
      (((OrderService.update_order_status demoStore 1 ⟨.confirmed, none⟩ 9 true 5).isOk = true
          ↔ OrderStatus.confirmed ∈ STATUS_TRANSITIONS demoOrder.status) ∧
        (OrderStatus.confirmed ∉ STATUS_TRANSITIONS demoOrder.status →
          OrderService.update_order_status demoStore 1 ⟨.confirmed, none⟩ 9 true 5 =
            .error (.validationError (invalidTransitionDetail demoOrder.status .confirmed))) ∧
        STATUS_TRANSITIONS .delivered = [] ∧ STATUS_TRANSITIONS .cancelled = []) :=
  ⟨by decide,
    privileged_transition_iff_in_table demoStore 1 ⟨.confirmed, none⟩ 9 5 demoOrder (by decide)⟩

/-- C3: a non-privileged owner requesting any status other than
`cancelled` is rejected with the permission-denied error even when the
table would allow the transition; requesting `cancelled` while the order
is not `pending` is rejected with the can-only-cancel-pending validation
error; and in every rejected case the stored state is unchanged. -/
theorem owner_transition_restrictions (store : Store) (order_id : Int)
    (data : OrderStatusUpdate) (changed_by : Int) (now : Int) (o : OrderRow)
    (hfind : get_by_id store order_id = some o) (howner : o.user_id = changed_by) :
    (data.status ≠ .cancelled →
        OrderService.update_order_status store order_id data changed_by false now =
          .error (.permissionDenied "Customers can only cancel orders")) ∧
      (data.status = .cancelled → o.status ≠ .pending →
        OrderService.update_order_status store order_id data changed_by false now =
          .error (.validationError "Can only cancel pending orders")) ∧
      ((data.status ≠ .cancelled ∨ o.status ≠ .pending) →
        runStatusUpdate store order_id data changed_by false now = store) := by
  have hu : (o.user_id != changed_by) = false := by simp [howner]
  unfold runStatusUpdate OrderService.update_order_status
  rw [hfind]
  by_cases hc : data.status = .cancelled <;> by_cases hp : o.status = .pending <;>
    simp [hu, hc, hp]

/-- Witness for C3: the owner of an order in `ready` requests
`delivering` and then `cancelled`; both are rejected with the store
unchanged. -/
theorem owner_transition_restrictions_witness :
    get_by_id demoStore 1 = some demoOrder ∧ demoOrder.user_id = 7 ∧
      ((OrderStatus.cancelled ≠ OrderStatus.cancelled →
          OrderService.update_order_status demoStore 1 ⟨.cancelled, none⟩ 7 false 5 =
            .error (.permissionDenied "Customers can only cancel orders")) ∧
        (OrderStatus.cancelled = OrderStatus.cancelled → demoOrder.status ≠ .pending →
          OrderService.update_order_status demoStore 1 ⟨.cancelled, none⟩ 7 false 5 =
            .error (.validationError "Can only cancel pending orders")) ∧
        ((OrderStatus.cancelled ≠ OrderStatus.cancelled ∨ demoOrder.status ≠ .pending) →
          runStatusUpdate demoStore 1 ⟨.cancelled, none⟩ 7 false 5 = demoStore)) :=
  ⟨by decide, by decide,
    owner_transition_restrictions demoStore 1 ⟨.cancelled, none⟩ 7 5 demoOrder
      (by decide) (by decide)⟩

/-- C6: an accepted status transition produces a store in which the order
row simultaneously carries the target status, a delivered-at timestamp
stamped with the current time exactly when the target is `delivered`
(otherwise the previous value), and its history extended by exactly one
new row recording the target status, the acting user and the optional
note — both effects are parts of the single store produced by the one
accepted step. -/
theorem accepted_transition_effects (store : Store) (order_id : Int)
    (data : OrderStatusUpdate) (changed_by : Int) (is_admin : Bool) (now : Int)
    (o : OrderRow) (store2 : Store)
    (hfind : get_by_id store order_id = some o)
    (hok : OrderService.update_order_status store order_id data changed_by is_admin now =
      .ok store2) :
    get_by_id store2 order_id = some
      { o with
        status := data.status
        delivered_at := if data.status = .delivered then some now else o.delivered_at
        status_history := o.status_history ++ [⟨data.status, data.note, some changed_by, now⟩] } := by
  unfold OrderService.update_order_status at hok
  rw [hfind] at hok
  have hstep : store2 =
      OrderRepository.update_status store order_id data.status (some changed_by) data.note now := by
    cases is_admin with
    | true =>
      simp only [Bool.not_true, Bool.false_and] at hok
      rw [if_neg (by simp), if_neg (by simp), if_neg (by simp)] at hok
      by_cases h4 : data.status ∈ STATUS_TRANSITIONS o.status
      · rw [if_pos h4] at hok
        exact (Except.ok.inj hok).symm
      · rw [if_neg h4] at hok
        exact absurd hok (by simp)
    | false =>
      simp only [Bool.not_false, Bool.true_and] at hok
      by_cases h1 : (o.user_id != changed_by) = true
      · rw [if_pos h1] at hok
        exact absurd hok (by simp)
      · rw [if_neg h1] at hok
        by_cases h2 : data.status = OrderStatus.cancelled
        · rw [if_neg (by simp [h2])] at hok
          by_cases h3 : o.status = OrderStatus.pending
          · rw [if_neg (by simp [h3])] at hok
            by_cases h4 : data.status ∈ STATUS_TRANSITIONS o.status
            · rw [if_pos h4] at hok
              exact (Except.ok.inj hok).symm
            · rw [if_neg h4] at hok
              exact absurd hok (by simp)
          · rw [if_pos (by simp [h3])] at hok
            exact absurd hok (by simp)
        · rw [if_pos (by simp [h2])] at hok
          exact absurd hok (by simp)
  have hpres : ∀ r : OrderRow,
      (r.apply_status_update data.status (some changed_by) data.note now).id = r.id :=
    fun _ => rfl
  rw [hstep, OrderRepository.update_status, get_by_id_store_update_same _ _ _ hpres, hfind]
  rfl

/-- Witness for C6: a privileged actor moves the demonstration order from
`ready` to `delivering`. -/
theorem accepted_transition_effects_witness :
    get_by_id demoStore 1 = some demoOrder ∧
      OrderService.update_order_status demoStore 1 ⟨.delivering, none⟩ 9 true 5 =
        .ok demoStore2 ∧
      get_by_id demoStore2 1 = some
        { demoOrder with
          status := OrderStatus.delivering
          delivered_at :=
            if OrderStatus.delivering = OrderStatus.delivered then some 5
            else demoOrder.delivered_at
          status_history := demoOrder.status_history ++
            [⟨OrderStatus.delivering, none, some 9, 5⟩] } :=
  ⟨by decide, by decide,
    accepted_transition_effects demoStore 1 ⟨.delivering, none⟩ 9 true 5 demoOrder demoStore2
      (by decide) (by decide)⟩

/-- Scenario A evaluated: creation succeeds with the literal store and
order row of the demonstration definitions. -/
theorem demoCreate_ok :
    OrderService.create_order demoCfg [] (some demoProducts) ["ORD-A"] 7 demoData 0 =
      .ok (demoCreatedStore, demoCreatedOrder) := by
  simp +decide [OrderService.create_order, OrderRepository.create, demoCfg, demoProducts,
    demoData, addressBlank, productMap, validateItems, orderSubtotal, lineSubtotal,
    modifiersTotal, resolvedPrice, resolvedName, buildItemRow, modifiersSnapshot, nextId,
    demoCreatedStore, demoCreatedOrder, demoCreatedItem, List.find?]
  norm_num

/-- Scenario B evaluated: creation succeeds with the literal store and
order row crossing the free-delivery threshold. -/
theorem demoCreateB_ok :
    OrderService.create_order demoCfg [] (some demoProducts) ["ORD-B"] 7 demoDataB 0 =
      .ok (demoCreatedStoreB, demoCreatedOrderB) := by
  simp +decide [OrderService.create_order, OrderRepository.create, demoCfg, demoProducts,
    demoDataB, addressBlank, productMap, validateItems, orderSubtotal, lineSubtotal,
    modifiersTotal, resolvedPrice, resolvedName, buildItemRow, modifiersSnapshot, nextId,
    demoCreatedStoreB, demoCreatedOrderB, demoCreatedItemB, List.find?]
  norm_num

/-- C1: every successfully created order satisfies total = subtotal +
delivery fee - discount exactly with the discount fixed at zero, and its
subtotal is the sum over the requested lines of (resolved unit price +
modifier total) times the requested quantity, where each modifier total
is the sum of modifier price times modifier quantity; the persisted
per-line subtotals are those same quantities. -/
theorem create_order_pricing (cfg : ServiceConfig) (store : Store) (products : List Product)
    (numbers : List String) (user_id : Int) (data : OrderCreate) (now : Int)
    (s : Store) (o : OrderRow)
    (hok : OrderService.create_order cfg store (some products) numbers user_id data now =
      .ok (s, o)) :
    o.discount = 0 ∧
      o.total = o.subtotal + o.delivery_fee - o.discount ∧
      o.subtotal = (data.items.map (fun item =>
        (resolvedPrice (productMap products) item.product_id +
          (item.modifiers.map (fun m => m.price * (m.quantity : ℚ))).sum) *
          (item.quantity : ℚ))).sum ∧
      o.items.map (fun it => it.subtotal) = data.items.map (fun item =>
        (resolvedPrice (productMap products) item.product_id +
          (item.modifiers.map (fun m => m.price * (m.quantity : ℚ))).sum) *
          (item.quantity : ℚ)) := by
  obtain ⟨ps, hps, hitems, hsub, hdisc, hfee, htot⟩ :=
    create_order_ok_fields cfg store (some products) numbers user_id data now s o hok
  obtain rfl : ps = products := (Option.some.inj hps).symm
  refine ⟨hdisc, htot, ?_, ?_⟩
  · rw [hsub]
    rfl
  · rw [hitems, List.map_map]
    rfl

/-- Witness for C1: scenario A of the specification — subtotal 20,
delivery fee 5, total 25. -/
theorem create_order_pricing_witness :
    OrderService.create_order demoCfg [] (some demoProducts) ["ORD-A"] 7 demoData 0 =
      .ok (demoCreatedStore, demoCreatedOrder) ∧
      (demoCreatedOrder.discount = 0 ∧
        demoCreatedOrder.total = demoCreatedOrder.subtotal + demoCreatedOrder.delivery_fee -
          demoCreatedOrder.discount ∧
        demoCreatedOrder.subtotal = (demoData.items.map (fun item =>
          (resolvedPrice (productMap demoProducts) item.product_id +
            (item.modifiers.map (fun m => m.price * (m.quantity : ℚ))).sum) *
            (item.quantity : ℚ))).sum ∧
        demoCreatedOrder.items.map (fun it => it.subtotal) = demoData.items.map (fun item =>
          (resolvedPrice (productMap demoProducts) item.product_id +
            (item.modifiers.map (fun m => m.price * (m.quantity : ℚ))).sum) *
            (item.quantity : ℚ))) :=
  ⟨demoCreate_ok,
    create_order_pricing demoCfg [] demoProducts ["ORD-A"] 7 demoData 0
      demoCreatedStore demoCreatedOrder demoCreate_ok⟩

/-- C4: when the Catalog Provider call fails, times out, or returns a
non-success envelope during a creation whose request-level address check
passed, the creation fails with the could-not-fetch validation error and
the store is left unchanged — no order, item or history row is
persisted. -/
theorem catalog_failure_creates_nothing (cfg : ServiceConfig) (store : Store)
    (numbers : List String) (user_id : Int) (data : OrderCreate) (now : Int)
    (ha : (data.delivery_type == DeliveryType.delivery && addressBlank data.delivery_address)
      = false) :
    OrderService.create_order cfg store none numbers user_id data now =
      .error (.validationError "Could not fetch product information") ∧
      runCreateOrder cfg store none numbers user_id data now = store := by
  have h1 : OrderService.create_order cfg store none numbers user_id data now =
      .error (.validationError "Could not fetch product information") := by
    simp only [OrderService.create_order]
    rw [if_neg (by simp [ha])]
  exact ⟨h1, by simp [runCreateOrder, h1]⟩

/-- Witness for C4: a pickup request against an unavailable catalog,
attempted over the demonstration store. -/
theorem catalog_failure_creates_nothing_witness :
    ((demoDataMin.delivery_type == DeliveryType.delivery &&
        addressBlank demoDataMin.delivery_address) = false) ∧
      (OrderService.create_order demoCfg demoStore none ["ORD-X"] 7 demoDataMin 0 =
        .error (.validationError "Could not fetch product information") ∧
        runCreateOrder demoCfg demoStore none ["ORD-X"] 7 demoDataMin 0 = demoStore) :=
  ⟨by decide,
    catalog_failure_creates_nothing demoCfg demoStore ["ORD-X"] 7 demoDataMin 0 (by decide)⟩

/-- C5: every successfully created order has delivery fee zero when the
delivery type is pickup; when it is delivery, the fee is the configured
flat fee when the subtotal is strictly below the free-delivery threshold
and zero when the subtotal reaches the threshold. -/
theorem delivery_fee_policy (cfg : ServiceConfig) (store : Store) (products : List Product)
    (numbers : List String) (user_id : Int) (data : OrderCreate) (now : Int)
    (s : Store) (o : OrderRow)
    (hok : OrderService.create_order cfg store (some products) numbers user_id data now =
      .ok (s, o)) :
    (data.delivery_type = .pickup → o.delivery_fee = 0) ∧
      (data.delivery_type = .delivery →
        (o.subtotal < cfg.free_delivery_threshold → o.delivery_fee = cfg.delivery_fee) ∧
        (cfg.free_delivery_threshold ≤ o.subtotal → o.delivery_fee = 0)) := by
  obtain ⟨ps, hps, hitems, hsub, hdisc, hfee, htot⟩ :=
    create_order_ok_fields cfg store (some products) numbers user_id data now s o hok
  obtain rfl : ps = products := (Option.some.inj hps).symm
  rw [← hsub] at hfee
  constructor
  · intro hp
    rw [hfee, hp]
    simp
  · intro hd
    constructor
    · intro hlt
      rw [hfee, hd]
      simp [hlt]
    · intro hge
      rw [hfee, hd]
      simp [not_lt.mpr hge]

/-- Witness for C5: scenario B of the specification — delivery order
with subtotal 60 at threshold 50, so the fee is zero. -/
theorem delivery_fee_policy_witness :
    OrderService.create_order demoCfg [] (some demoProducts) ["ORD-B"] 7 demoDataB 0 =
      .ok (demoCreatedStoreB, demoCreatedOrderB) ∧
      ((demoDataB.delivery_type = DeliveryType.pickup → demoCreatedOrderB.delivery_fee = 0) ∧
        (demoDataB.delivery_type = DeliveryType.delivery →
          (demoCreatedOrderB.subtotal < demoCfg.free_delivery_threshold →
            demoCreatedOrderB.delivery_fee = demoCfg.delivery_fee) ∧
          (demoCfg.free_delivery_threshold ≤ demoCreatedOrderB.subtotal →
            demoCreatedOrderB.delivery_fee = 0))) :=
  ⟨demoCreateB_ok,
    delivery_fee_policy demoCfg [] demoProducts ["ORD-B"] 7 demoDataB 0
      demoCreatedStoreB demoCreatedOrderB demoCreateB_ok⟩

/-- C9: once the address, catalog and product checks of a creation have
passed, the request is rejected with the minimum-order validation error
exactly when the computed subtotal is strictly below the configured
minimum — leaving the store unchanged, so nothing is persisted — and a
subtotal equal to the minimum is accepted (given a fresh order number). -/
theorem below_minimum_policy (cfg : ServiceConfig) (store : Store) (products : List Product)
    (numbers : List String) (user_id : Int) (data : OrderCreate) (now : Int)
    (ha : (data.delivery_type == DeliveryType.delivery && addressBlank data.delivery_address)
      = false)
    (hne : products.isEmpty = false)
    (hv : validateItems (productMap products) data.items = none) :
    (orderSubtotal (productMap products) data.items < cfg.min_order_amount →
        OrderService.create_order cfg store (some products) numbers user_id data now =
          .error (.validationError ("Minimum order amount is " ++ toString cfg.min_order_amount)) ∧
        runCreateOrder cfg store (some products) numbers user_id data now = store) ∧
      (cfg.min_order_amount ≤ orderSubtotal (productMap products) data.items →
        store.any (fun r => r.order_number == numbers.headD "") = false →
        createSucceeded
          (OrderService.create_order cfg store (some products) numbers user_id data now)
          = true) := by
  have hred : OrderService.create_order cfg store (some products) numbers user_id data now =
      (if orderSubtotal (productMap products) data.items < cfg.min_order_amount then
        Except.error
          (Err.validationError ("Minimum order amount is " ++ toString cfg.min_order_amount))
      else OrderRepository.create store numbers user_id
        (data.items.map (buildItemRow (productMap products))) data
        (orderSubtotal (productMap products) data.items)
        (if data.delivery_type == DeliveryType.delivery then
          (if orderSubtotal (productMap products) data.items < cfg.free_delivery_threshold
            then cfg.delivery_fee else 0) else 0)
        0
        (orderSubtotal (productMap products) data.items +
          (if data.delivery_type == DeliveryType.delivery then
            (if orderSubtotal (productMap products) data.items < cfg.free_delivery_threshold
              then cfg.delivery_fee else 0) else 0) - 0)
        now) := by
    simp only [OrderService.create_order]
    rw [if_neg (by simp [ha]), if_neg (by simp [hne]), hv]
  constructor
  · intro hmin
    have he : OrderService.create_order cfg store (some products) numbers user_id data now =
        .error (.validationError ("Minimum order amount is " ++ toString cfg.min_order_amount)) := by
      rw [hred, if_pos hmin]
    exact ⟨he, by simp [runCreateOrder, he]⟩
  · intro hge hfresh
    rw [hred, if_neg (not_lt.mpr hge)]
    simp only [OrderRepository.create]
    rw [if_neg (by rw [hfresh]; decide)]
    rfl

/-- Witness for C9: a pickup order whose subtotal is exactly the
configured minimum of 10 is accepted. -/
theorem below_minimum_policy_witness :
    ((demoDataMin.delivery_type == DeliveryType.delivery &&
        addressBlank demoDataMin.delivery_address) = false) ∧
      demoProductsMin.isEmpty = false ∧
      validateItems (productMap demoProductsMin) demoDataMin.items = none ∧
      ((orderSubtotal (productMap demoProductsMin) demoDataMin.items < demoCfg.min_order_amount →
          OrderService.create_order demoCfg [] (some demoProductsMin) ["ORD-C"] 7 demoDataMin 0 =
            .error (.validationError
              ("Minimum order amount is " ++ toString demoCfg.min_order_amount)) ∧
          runCreateOrder demoCfg [] (some demoProductsMin) ["ORD-C"] 7 demoDataMin 0 = []) ∧
        (demoCfg.min_order_amount ≤ orderSubtotal (productMap demoProductsMin) demoDataMin.items →
          List.any ([] : Store) (fun r => r.order_number == List.headD ["ORD-C"] "") = false →
          createSucceeded
            (OrderService.create_order demoCfg [] (some demoProductsMin) ["ORD-C"] 7 demoDataMin 0)
            = true)) :=
  ⟨by decide, by decide, by decide,
    below_minimum_policy demoCfg [] demoProductsMin ["ORD-C"] 7 demoDataMin 0
      (by decide) (by decide) (by decide)⟩

/-- C10: for every successfully created order, the persisted per-line
modifier totals are computed from the modifier prices and quantities
supplied verbatim in the client request — a function of the request
lines alone, with no lookup against the catalog — while the persisted
unit price comes from the resolver; and a client-chosen zero or negative
modifier price directly changes the persisted total: the demonstration
request with a zero-priced modifier persists total 10, the same request
with the modifier priced -2 persists total 8. -/
theorem modifier_pricing_client_controlled (cfg : ServiceConfig) (store : Store)
    (products : List Product) (numbers : List String) (user_id : Int) (data : OrderCreate)
    (now : Int) (s : Store) (o : OrderRow)
    (hok : OrderService.create_order cfg store (some products) numbers user_id data now =
      .ok (s, o)) :
    (o.items.map (fun it => it.modifiers_total) =
        data.items.map (fun item =>
          (item.modifiers.map (fun m => m.price * (m.quantity : ℚ))).sum)) ∧
      (o.items.map (fun it => it.product_price) =
        data.items.map (fun item => resolvedPrice (productMap products) item.product_id)) ∧
      demoTotal (demoModData 0) = some 10 ∧
      demoTotal (demoModData (-2)) = some 8 := by
  obtain ⟨ps, hps, hitems, hsub, hdisc, hfee, htot⟩ :=
    create_order_ok_fields cfg store (some products) numbers user_id data now s o hok
  obtain rfl : ps = products := (Option.some.inj hps).symm
  refine ⟨?_, ?_, ?_, ?_⟩
  · rw [hitems, List.map_map]
    rfl
  · rw [hitems, List.map_map]
    rfl
  · simp +decide [OrderService.create_order, OrderRepository.create, demoTotal, demoModData,
      demoProducts, addressBlank, productMap, validateItems, orderSubtotal, lineSubtotal,
      modifiersTotal, resolvedPrice, resolvedName, buildItemRow, modifiersSnapshot, nextId,
      List.find?]
  · simp +decide [OrderService.create_order, OrderRepository.create, demoTotal, demoModData,
      demoProducts, addressBlank, productMap, validateItems, orderSubtotal, lineSubtotal,
      modifiersTotal, resolvedPrice, resolvedName, buildItemRow, modifiersSnapshot, nextId,
      List.find?]
    norm_num

/-- Witness for C10: scenario A, whose single line carries no modifiers,
so its modifier total is the empty client sum. -/
theorem modifier_pricing_client_controlled_witness :
    OrderService.create_order demoCfg [] (some demoProducts) ["ORD-A"] 7 demoData 0 =
      .ok (demoCreatedStore, demoCreatedOrder) ∧
      ((demoCreatedOrder.items.map (fun it => it.modifiers_total) =
          demoData.items.map (fun item =>
            (item.modifiers.map (fun m => m.price * (m.quantity : ℚ))).sum)) ∧
        (demoCreatedOrder.items.map (fun it => it.product_price) =
          demoData.items.map (fun item =>
            resolvedPrice (productMap demoProducts) item.product_id)) ∧
        demoTotal (demoModData 0) = some 10 ∧
        demoTotal (demoModData (-2)) = some 8) :=
  ⟨demoCreate_ok,
    modifier_pricing_client_controlled demoCfg [] demoProducts ["ORD-A"] 7 demoData 0
      demoCreatedStore demoCreatedOrder demoCreate_ok⟩

/-- C8 counterexample: with a store already holding the number `ORD-DUP`,
a creation whose first generated candidate is `ORD-DUP` fails with the
raw uniqueness-constraint integrity error of the store — not a dedicated
duplicate-order-number error, which nothing in the repository produces —
even though the unused second candidate `ORD-FRESH` is free, so a single
regenerate-and-retry would have succeeded, as the final conjunct shows. -/
theorem create_collision_surfaces_integrity_error :
    OrderRepository.create dupStore ["ORD-DUP", "ORD-FRESH"] 7 [] demoDataMin 20 0 0 20 0 =
      .error (.integrityError "UNIQUE constraint failed: orders.order_number") ∧
      dupStore.all (fun o => !(o.order_number == "ORD-FRESH")) = true ∧
      createSucceeded
        (OrderRepository.create dupStore ["ORD-FRESH"] 7 [] demoDataMin 20 0 0 20 0) = true := by
  decide

/-- C8 amended: the store generates the order number once per creation
attempt — the outcome depends only on the first candidate of the
generation stream — and a collision of that candidate surfaces to the
caller unchanged as the uniqueness-constraint integrity error, with no
internal regeneration or retry. -/
theorem create_single_attempt (store : Store) (n : String) (rest rest2 : List String)
    (user_id : Int) (items_data : List OrderItemRow) (data : OrderCreate)
    (subtotal delivery_fee discount total : ℚ) (now : Int)
    (hc : store.any (fun o => o.order_number == n) = true) :
    OrderRepository.create store (n :: rest) user_id items_data data
        subtotal delivery_fee discount total now =
      OrderRepository.create store (n :: rest2) user_id items_data data
        subtotal delivery_fee discount total now ∧
      OrderRepository.create store (n :: rest) user_id items_data data
        subtotal delivery_fee discount total now =
        .error (.integrityError "UNIQUE constraint failed: orders.order_number") := by
  refine ⟨rfl, ?_⟩
  simp [OrderRepository.create, hc]

/-- Witness for C8 as amended: the collision on `ORD-DUP`. -/
theorem create_single_attempt_witness :
    dupStore.any (fun o => o.order_number == "ORD-DUP") = true ∧
      (OrderRepository.create dupStore ["ORD-DUP", "ORD-FRESH"] 7 [] demoDataMin 20 0 0 20 0 =
        OrderRepository.create dupStore ["ORD-DUP"] 7 [] demoDataMin 20 0 0 20 0 ∧
        OrderRepository.create dupStore ["ORD-DUP", "ORD-FRESH"] 7 [] demoDataMin 20 0 0 20 0 =
          .error (.integrityError "UNIQUE constraint failed: orders.order_number")) :=
  ⟨by decide,
    create_single_attempt dupStore "ORD-DUP" ["ORD-FRESH"] [] 7 [] demoDataMin
      20 0 0 20 0 (by decide)⟩

end DeliveryPizza
